import Mathlib

/-!
Shallow embedding of the `LivePlayer` audio session controller (the
`LivePlayer` class of the repository's live-player source file).

Modelling conventions:
* JS numbers are modelled as `ℚ` (volumes, media times) and `Nat`
  (counters, timer ids).
* `setTimeout` calls and pending `play()` promises are modelled as one-shot
  tasks in `pending`, each carrying its delay; the single-threaded event
  loop is modelled by an explicit event trace (`Event`, `run`): the
  environment chooses which media events occur and in which order pending
  tasks fire, exactly one at a time.
* `callbacks.onStateChange` invocations are recorded in `emitted`: each
  element is the full state record passed to the callback, in order.
* `errorHandlerInvocations` is observation-only instrumentation counting
  entries into `handleLiveError`; it influences no behaviour.
* The `AudioContext` / analyser plumbing carries no state-machine content;
  `animationFrameOn` models the `requestAnimationFrame` analysis-loop
  handle (`startFrequencyAnalysis` / `cancelAnimationFrame`).
-/

namespace Radio

/-- The five-valued `status` union of the `LivePlayerState` interface. -/
inductive Status where
  | INTRO
  | LIVE_CONNECTING
  | LIVE_ON_AIR
  | LIVE_RECONNECTING
  | LIVE_UNAVAILABLE
  deriving DecidableEq, Repr

/-- The `LivePlayerState` interface (the record broadcast on every change). -/
structure LivePlayerState where
  status : Status
  isPlaying : Bool
  volume : ℚ
  currentTime : ℚ
  duration : ℚ
  reconnectAttempts : Nat
  maxReconnectAttempts : Nat
  deriving DecidableEq, Repr

/-- A `Partial<LivePlayerState>`: the argument of `updateState`. -/
structure StateUpdate where
  status : Option Status := none
  isPlaying : Option Bool := none
  volume : Option ℚ := none
  currentTime : Option ℚ := none
  duration : Option ℚ := none
  reconnectAttempts : Option Nat := none
  maxReconnectAttempts : Option Nat := none
  deriving DecidableEq, Repr

/-- Object-spread semantics of `{ ...this.state, ...updates }`: every field
named in the update takes the updated value, every other field keeps its
previous value. -/
def applyUpdate (s : LivePlayerState) (u : StateUpdate) : LivePlayerState where
  status := u.status.getD s.status
  isPlaying := u.isPlaying.getD s.isPlaying
  volume := u.volume.getD s.volume
  currentTime := u.currentTime.getD s.currentTime
  duration := u.duration.getD s.duration
  reconnectAttempts := u.reconnectAttempts.getD s.reconnectAttempts
  maxReconnectAttempts := u.maxReconnectAttempts.getD s.maxReconnectAttempts

/-- The observable fields of an `HTMLAudioElement` that the controller
reads or writes (`src`, `volume`, `paused`, `currentTime`). -/
structure AudioEl where
  src : String
  volume : ℚ
  paused : Bool
  currentTime : ℚ
  deriving DecidableEq, Repr

/-- The distinct callbacks the controller hands to `setTimeout` (and the
pending `play()` promise, whose rejection handler is also scheduled work):
* `reconnect` — the 3000 ms callback of `handleLiveError` (runs `goLiveNow`);
* `crossfadeStep step` — the `crossfade` closure with the captured value of
  its mutable `step` counter;
* `candidateTimeout urls index` — the 5000 ms per-candidate timeout of
  `tryStreamUrls` (advances only while still `LIVE_CONNECTING`);
* `rejectRetry urls index` — the 1000 ms retry scheduled by the `play()`
  rejection handler (advances unconditionally);
* `playPromise urls index` — the pending `play()` promise itself; firing it
  models the promise rejecting, which schedules the 1000 ms retry. -/
inductive TaskKind where
  | reconnect
  | crossfadeStep (step : Nat)
  | candidateTimeout (urls : List String) (index : Nat)
  | rejectRetry (urls : List String) (index : Nat)
  | playPromise (urls : List String) (index : Nat)
  deriving DecidableEq, Repr

/-- A scheduled one-shot task: its timer id, its delay, and its callback. -/
structure Pend where
  id : Nat
  delayMs : Nat
  task : TaskKind
  deriving DecidableEq, Repr

/-- The `LivePlayer` class: its `state`, its private fields, plus the event
loop (`pending`, `nextId`) and observation log (`emitted`,
`errorHandlerInvocations`) of the model. -/
structure LivePlayer where
  state : LivePlayerState
  introAudio : Option AudioEl
  liveAudio : Option AudioEl
  reconnectTimeout : Option Nat
  crossfadeTimeout : Option Nat
  animationFrameOn : Bool
  pending : List Pend
  nextId : Nat
  emitted : List LivePlayerState
  errorHandlerInvocations : Nat
  deriving DecidableEq, Repr

/-- The constructor: the initial `this.state` record; all element and timer
fields start `null`. -/
def LivePlayer.new : LivePlayer where
  state :=
    { status := Status.INTRO
      isPlaying := false
      volume := 1/2
      currentTime := 0
      duration := 0
      reconnectAttempts := 0
      maxReconnectAttempts := 10 }
  introAudio := none
  liveAudio := none
  reconnectTimeout := none
  crossfadeTimeout := none
  animationFrameOn := false
  pending := []
  nextId := 0
  emitted := []
  errorHandlerInvocations := 0

namespace LivePlayer

/-- `setTimeout(cb, delayMs)`: appends a fresh one-shot task and returns its
timer id. -/
def schedule (c : LivePlayer) (delayMs : Nat) (task : TaskKind) :
    LivePlayer × Nat :=
  ({ c with
      pending := c.pending ++ [⟨c.nextId, delayMs, task⟩]
      nextId := c.nextId + 1 },
    c.nextId)

/-- `clearTimeout(id)`: removes the pending task with that timer id. -/
def clearTimeout (c : LivePlayer) (id : Nat) : LivePlayer :=
  { c with pending := c.pending.filter (fun t => t.id != id) }

/-- `updateState`: merge the partial update into `this.state`, then invoke
`onStateChange` with the complete new record. -/
def updateState (c : LivePlayer) (u : StateUpdate) : LivePlayer :=
  let s := applyUpdate c.state u
  { c with state := s, emitted := c.emitted ++ [s] }

/-- `handleLiveError` (the reconnect handler): increment the attempt
counter; at or above the ceiling go `LIVE_UNAVAILABLE`, otherwise go
`LIVE_RECONNECTING` and schedule `goLiveNow` after 3000 ms (the previous
`reconnectTimeout` handle is overwritten without being cleared). -/
def handleLiveError (c : LivePlayer) : LivePlayer :=
  let c1 : LivePlayer :=
    { c with errorHandlerInvocations := c.errorHandlerInvocations + 1 }
  if c1.state.maxReconnectAttempts ≤ c1.state.reconnectAttempts + 1 then
    updateState c1
      { status := some Status.LIVE_UNAVAILABLE
        isPlaying := some false
        reconnectAttempts := some (c1.state.reconnectAttempts + 1) }
  else
    let c2 := updateState c1
      { status := some Status.LIVE_RECONNECTING
        reconnectAttempts := some (c1.state.reconnectAttempts + 1) }
    let r := schedule c2 3000 TaskKind.reconnect
    { r.1 with reconnectTimeout := some r.2 }

/-- The body of the `crossfade` closure in `startCrossfade`, at a given
value of its captured `step` counter (`steps = 50`, `stepDuration = 40`):
set both element volumes from the linear interpolation of the current
shared `state.volume`, increment `step`, and either schedule the next step
or — once the counter exceeds 50 — pause the intro element and reset its
playback position. -/
def crossfade (c : LivePlayer) (step : Nat) : LivePlayer :=
  match c.introAudio, c.liveAudio with
  | some ia, some la =>
      let progress : ℚ := (step : ℚ) / 50
      let introVolume : ℚ := (1 - progress) * c.state.volume
      let liveVolume : ℚ := progress * c.state.volume
      let ia2 : AudioEl := { ia with volume := max 0 introVolume }
      let la2 : AudioEl := { la with volume := max 0 liveVolume }
      if step + 1 ≤ 50 then
        let r := schedule
          { c with introAudio := some ia2, liveAudio := some la2 }
          40 (TaskKind.crossfadeStep (step + 1))
        { r.1 with crossfadeTimeout := some r.2 }
      else
        { c with
            introAudio := some { ia2 with paused := true, currentTime := 0 }
            liveAudio := some la2 }
  | _, _ => c

/-- `startCrossfade`: requires both elements; clears any existing crossfade
timer (without nulling the handle field) and runs the first `crossfade`
call synchronously with `step = 0`. -/
def startCrossfade (c : LivePlayer) : LivePlayer :=
  match c.introAudio, c.liveAudio with
  | some _, some _ =>
      let c1 :=
        match c.crossfadeTimeout with
        | some id => clearTimeout c id
        | none => c
      crossfade c1 0
  | _, _ => c

/-- `tryStreamUrls(urls, index)`: past the end of the list (or with no live
element) hand over to the reconnect handler; otherwise assign the candidate
URL, request load+play (the pending promise may later reject), and start
the per-candidate 5000 ms timeout. -/
def tryStreamUrls (c : LivePlayer) (urls : List String) (index : Nat) :
    LivePlayer :=
  match c.liveAudio with
  | none => handleLiveError c
  | some la =>
      if urls.length ≤ index then handleLiveError c
      else
        let c1 : LivePlayer :=
          { c with liveAudio := some { la with src := urls.getD index "" } }
        let p := schedule c1 0 (TaskKind.playPromise urls index)
        let q := schedule p.1 5000 (TaskKind.candidateTimeout urls index)
        q.1

/-- The hard-coded candidate list built by `goLiveNow`. -/
def streamUrls : List String :=
  ["https://radio.killedbythegalaxy.com/radio/8000/radio.mp3",
   "https://stream.zeno.fm/your-fallback-stream",
   "/music/intro.mp3"]

/-- `goLiveNow`: returns early only when the live element is `null`;
otherwise cancels any pending reconnect timer, enters `LIVE_CONNECTING`
with `reconnectAttempts` set to 0, and starts the candidate sequence. -/
def goLiveNow (c : LivePlayer) : LivePlayer :=
  match c.liveAudio with
  | none => c
  | some _ =>
      let c1 :=
        match c.reconnectTimeout with
        | some id => { clearTimeout c id with reconnectTimeout := none }
        | none => c
      let c2 := updateState c1
        { status := some Status.LIVE_CONNECTING, reconnectAttempts := some 0 }
      tryStreamUrls c2 streamUrls 0

/-- The `canplay` listener on the live element. -/
def onCanPlay (c : LivePlayer) : LivePlayer :=
  if c.state.status = Status.LIVE_CONNECTING then
    startCrossfade (updateState c
      { status := some Status.LIVE_ON_AIR, isPlaying := some true })
  else c

/-- The `play` listener on the live element. -/
def onLivePlay (c : LivePlayer) : LivePlayer :=
  if c.state.status = Status.LIVE_ON_AIR then
    updateState c { isPlaying := some true }
  else c

/-- The `pause` listener on the live element. -/
def onLivePause (c : LivePlayer) : LivePlayer :=
  updateState c { isPlaying := some false }

/-- The `ended` listener on the intro element. -/
def onIntroEnded (c : LivePlayer) : LivePlayer :=
  goLiveNow (updateState c { isPlaying := some false })

/-- The `error` listener on the intro element (skip-ahead to live). -/
def onIntroError (c : LivePlayer) : LivePlayer :=
  goLiveNow c

/-- The `play` listener on the intro element. -/
def onIntroPlay (c : LivePlayer) : LivePlayer :=
  updateState c { isPlaying := some true }

/-- The `pause` listener on the intro element. -/
def onIntroPause (c : LivePlayer) : LivePlayer :=
  updateState c { isPlaying := some false }

/-- The `timeupdate` listener on the intro element; the element's playback
position `t` is supplied by the environment (`onTimeUpdate` also fires, not
tracked). -/
def onIntroTimeUpdate (c : LivePlayer) (t : ℚ) : LivePlayer :=
  match c.introAudio with
  | none => c
  | some ia =>
      updateState { c with introAudio := some { ia with currentTime := t } }
        { currentTime := some t }

/-- The `loadedmetadata` listener on the intro element; the duration `d` is
supplied by the environment. -/
def onIntroLoadedMetadata (c : LivePlayer) (d : ℚ) : LivePlayer :=
  match c.introAudio with
  | none => c
  | some _ => updateState c { duration := some d }

/-- `setVolume`: broadcast the new target, then write it directly to both
elements' volumes. -/
def setVolume (c : LivePlayer) (v : ℚ) : LivePlayer :=
  let c1 := updateState c { volume := some v }
  let c2 :=
    match c1.introAudio with
    | some ia => { c1 with introAudio := some { ia with volume := v } }
    | none => c1
  match c2.liveAudio with
  | some la => { c2 with liveAudio := some { la with volume := v } }
  | none => c2

/-- `teardown`: clear the stored reconnect and crossfade timers, cancel the
analysis loop, pause and detach both elements (the `audioContext.close()`
call holds no further state-machine content). Timer handles are cleared but
not nulled, and `this.state` is not touched. -/
def teardown (c : LivePlayer) : LivePlayer :=
  let c1 :=
    match c.reconnectTimeout with
    | some id => clearTimeout c id
    | none => c
  let c2 :=
    match c1.crossfadeTimeout with
    | some id => clearTimeout c1 id
    | none => c1
  let c3 : LivePlayer := { c2 with animationFrameOn := false }
  let c4 :=
    match c3.introAudio with
    | some ia => { c3 with introAudio := some { ia with paused := true, src := "" } }
    | none => c3
  match c4.liveAudio with
  | some la => { c4 with liveAudio := some { la with paused := true, src := "" } }
  | none => c4

/-- `init()`: the environment decides whether audio-subsystem acquisition
(`new AudioContext()`, the first statement of the `try` block) throws. On
throw the `catch` reports `LIVE_UNAVAILABLE`; otherwise both elements are
created (intro source loaded, neither auto-started), the analysis loop
starts, and `INTRO` is re-broadcast. No exception escapes. -/
def init (c : LivePlayer) (audioAcquisitionThrows : Bool) : LivePlayer :=
  if audioAcquisitionThrows then
    updateState c { status := some Status.LIVE_UNAVAILABLE }
  else
    let c1 : LivePlayer :=
      { c with
          introAudio := some
            { src := "/music/intro.mp3", volume := c.state.volume
              paused := true, currentTime := 0 }
          liveAudio := some
            { src := "", volume := c.state.volume
              paused := true, currentTime := 0 }
          animationFrameOn := true }
    updateState c1 { status := some Status.INTRO }

/-- Run the callback of a fired task. -/
def fireTask (c : LivePlayer) (task : TaskKind) : LivePlayer :=
  match task with
  | TaskKind.reconnect => goLiveNow c
  | TaskKind.crossfadeStep step => crossfade c step
  | TaskKind.candidateTimeout urls index =>
      if c.state.status = Status.LIVE_CONNECTING then
        tryStreamUrls c urls (index + 1)
      else c
  | TaskKind.rejectRetry urls index => tryStreamUrls c urls (index + 1)
  | TaskKind.playPromise urls index =>
      (schedule c 1000 (TaskKind.rejectRetry urls index)).1

/-- The event loop delivering one pending one-shot task: remove it, then
run its callback. Ids that are not pending (never scheduled, already fired,
or cancelled) deliver nothing. -/
def fireTimer (c : LivePlayer) (id : Nat) : LivePlayer :=
  match c.pending.find? (fun t => t.id == id) with
  | none => c
  | some t => fireTask (clearTimeout c id) t.task

end LivePlayer

/-- One environment step: a media-element event, an external intent, or the
firing of one pending task. -/
inductive Event where
  | fireTimer (id : Nat)
  | canplay
  | liveError
  | liveStalled
  | livePlay
  | livePause
  | introEnded
  | introError
  | introPlay
  | introPause
  | introTimeUpdate (t : ℚ)
  | introLoadedMetadata (d : ℚ)
  | goLive
  | setVol (v : ℚ)
  | tearDown
  deriving DecidableEq, Repr

/-- Dispatch one environment step to the controller. -/
def stepEvent (c : LivePlayer) (e : Event) : LivePlayer :=
  match e with
  | Event.fireTimer id => c.fireTimer id
  | Event.canplay => c.onCanPlay
  | Event.liveError => c.handleLiveError
  | Event.liveStalled => c.handleLiveError
  | Event.livePlay => c.onLivePlay
  | Event.livePause => c.onLivePause
  | Event.introEnded => c.onIntroEnded
  | Event.introError => c.onIntroError
  | Event.introPlay => c.onIntroPlay
  | Event.introPause => c.onIntroPause
  | Event.introTimeUpdate t => c.onIntroTimeUpdate t
  | Event.introLoadedMetadata d => c.onIntroLoadedMetadata d
  | Event.goLive => c.goLiveNow
  | Event.setVol v => c.setVolume v
  | Event.tearDown => c.teardown

/-- Run an event trace. -/
def run (c : LivePlayer) (es : List Event) : LivePlayer :=
  es.foldl stepEvent c

/-! ### Derived observations used by the claims -/

/-- The controller as left by a successful `init()` (the start of every
session considered below). -/
def initPlayer : LivePlayer :=
  LivePlayer.init LivePlayer.new false

/-- The ids of the currently pending one-shot tasks. -/
def pendingIds (c : LivePlayer) : List Nat :=
  c.pending.map Pend.id

/-- How many state snapshots delivered to `onStateChange` violated the
`reconnectAttempts <= maxReconnectAttempts` bound. -/
def snapshotViolations (c : LivePlayer) : Nat :=
  (c.emitted.filter (fun s => s.maxReconnectAttempts < s.reconnectAttempts)).length

/-- The crossfade sequence when every one of the fifty scheduled steps runs
(the closure is entered with `step = 0` synchronously, then with
`step = 1, …, 50` from the timer chain). -/
def crossfadeToCompletion (c : LivePlayer) : LivePlayer :=
  (List.range 50).foldl (fun a k => LivePlayer.crossfade a (k + 1))
    (LivePlayer.startCrossfade c)

/-- The attempt-counter discipline the code actually maintains on every
state record: the ceiling is the constant 10, and any record at or past the
ceiling carries status `LIVE_UNAVAILABLE`. -/
def Good (s : LivePlayerState) : Prop :=
  s.maxReconnectAttempts = 10 ∧
    (s.reconnectAttempts < s.maxReconnectAttempts ∨
      s.status = Status.LIVE_UNAVAILABLE)

/-- `Good` holds of the current state and of every snapshot ever delivered
to `onStateChange`. -/
def GoodC (c : LivePlayer) : Prop :=
  Good c.state ∧ ∀ s ∈ c.emitted, Good s

/-- What `teardown` achieves for timers, relative to the pre-teardown
controller `c` with stored reconnect handle `i` and crossfade handle `j`:
the analysis loop is off, the stored timers are no longer pending, and no
new task was scheduled. -/
def TimersCleared (c d : LivePlayer) (i j : Nat) : Prop :=
  d.animationFrameOn = false ∧
    ∀ t ∈ d.pending, t.id ≠ i ∧ t.id ≠ j ∧ t ∈ c.pending

/-- Field-wise characterisation of the object-spread merge: a field absent
from the update keeps its previous value, a field present takes exactly the
updated value. -/
def MergeSpec (s : LivePlayerState) (u : StateUpdate) : Prop :=
  ((u.status = none → (applyUpdate s u).status = s.status) ∧
    (∀ x, u.status = some x → (applyUpdate s u).status = x)) ∧
  ((u.isPlaying = none → (applyUpdate s u).isPlaying = s.isPlaying) ∧
    (∀ x, u.isPlaying = some x → (applyUpdate s u).isPlaying = x)) ∧
  ((u.volume = none → (applyUpdate s u).volume = s.volume) ∧
    (∀ x, u.volume = some x → (applyUpdate s u).volume = x)) ∧
  ((u.currentTime = none → (applyUpdate s u).currentTime = s.currentTime) ∧
    (∀ x, u.currentTime = some x → (applyUpdate s u).currentTime = x)) ∧
  ((u.duration = none → (applyUpdate s u).duration = s.duration) ∧
    (∀ x, u.duration = some x → (applyUpdate s u).duration = x)) ∧
  ((u.reconnectAttempts = none →
      (applyUpdate s u).reconnectAttempts = s.reconnectAttempts) ∧
    (∀ x, u.reconnectAttempts = some x →
      (applyUpdate s u).reconnectAttempts = x)) ∧
  ((u.maxReconnectAttempts = none →
      (applyUpdate s u).maxReconnectAttempts = s.maxReconnectAttempts) ∧
    (∀ x, u.maxReconnectAttempts = some x →
      (applyUpdate s u).maxReconnectAttempts = x))

/-! ### Projection lemmas -/

@[simp]
theorem applyUpdate_status (s : LivePlayerState) (u : StateUpdate) :
    (applyUpdate s u).status = u.status.getD s.status := rfl

@[simp]
theorem applyUpdate_isPlaying (s : LivePlayerState) (u : StateUpdate) :
    (applyUpdate s u).isPlaying = u.isPlaying.getD s.isPlaying := rfl

@[simp]
theorem applyUpdate_volume (s : LivePlayerState) (u : StateUpdate) :
    (applyUpdate s u).volume = u.volume.getD s.volume := rfl

@[simp]
theorem applyUpdate_currentTime (s : LivePlayerState) (u : StateUpdate) :
    (applyUpdate s u).currentTime = u.currentTime.getD s.currentTime := rfl

@[simp]
theorem applyUpdate_duration (s : LivePlayerState) (u : StateUpdate) :
    (applyUpdate s u).duration = u.duration.getD s.duration := rfl

@[simp]
theorem applyUpdate_reconnectAttempts (s : LivePlayerState) (u : StateUpdate) :
    (applyUpdate s u).reconnectAttempts =
      u.reconnectAttempts.getD s.reconnectAttempts := rfl

@[simp]
theorem applyUpdate_maxReconnectAttempts (s : LivePlayerState) (u : StateUpdate) :
    (applyUpdate s u).maxReconnectAttempts =
      u.maxReconnectAttempts.getD s.maxReconnectAttempts := rfl

namespace LivePlayer

theorem updateState_state (c : LivePlayer) (u : StateUpdate) :
    (updateState c u).state = applyUpdate c.state u := rfl

theorem updateState_emitted (c : LivePlayer) (u : StateUpdate) :
    (updateState c u).emitted = c.emitted ++ [applyUpdate c.state u] := rfl

@[simp]
theorem updateState_introAudio (c : LivePlayer) (u : StateUpdate) :
    (updateState c u).introAudio = c.introAudio := rfl

@[simp]
theorem updateState_liveAudio (c : LivePlayer) (u : StateUpdate) :
    (updateState c u).liveAudio = c.liveAudio := rfl

@[simp]
theorem updateState_reconnectTimeout (c : LivePlayer) (u : StateUpdate) :
    (updateState c u).reconnectTimeout = c.reconnectTimeout := rfl

@[simp]
theorem updateState_crossfadeTimeout (c : LivePlayer) (u : StateUpdate) :
    (updateState c u).crossfadeTimeout = c.crossfadeTimeout := rfl

@[simp]
theorem updateState_pending (c : LivePlayer) (u : StateUpdate) :
    (updateState c u).pending = c.pending := rfl

@[simp]
theorem updateState_nextId (c : LivePlayer) (u : StateUpdate) :
    (updateState c u).nextId = c.nextId := rfl

@[simp]
theorem clearTimeout_state (c : LivePlayer) (id : Nat) :
    (clearTimeout c id).state = c.state := rfl

@[simp]
theorem clearTimeout_emitted (c : LivePlayer) (id : Nat) :
    (clearTimeout c id).emitted = c.emitted := rfl

@[simp]
theorem clearTimeout_introAudio (c : LivePlayer) (id : Nat) :
    (clearTimeout c id).introAudio = c.introAudio := rfl

@[simp]
theorem clearTimeout_liveAudio (c : LivePlayer) (id : Nat) :
    (clearTimeout c id).liveAudio = c.liveAudio := rfl

@[simp]
theorem clearTimeout_crossfadeTimeout (c : LivePlayer) (id : Nat) :
    (clearTimeout c id).crossfadeTimeout = c.crossfadeTimeout := rfl

@[simp]
theorem clearTimeout_nextId (c : LivePlayer) (id : Nat) :
    (clearTimeout c id).nextId = c.nextId := rfl

/-! ### Preservation of the attempt-counter discipline -/

theorem updateState_goodC {c : LivePlayer} {u : StateUpdate}
    (h : GoodC c) (hg : Good (applyUpdate c.state u)) :
    GoodC (updateState c u) := by
  refine ⟨hg, ?_⟩
  intro s hs
  rw [updateState_emitted, List.mem_append] at hs
  rcases hs with hs | hs
  · exact h.2 s hs
  · rw [List.mem_singleton] at hs
    subst hs
    exact hg

theorem handleLiveError_goodC {c : LivePlayer} (h : GoodC c) :
    GoodC (handleLiveError c) := by
  have hmax : c.state.maxReconnectAttempts = 10 := h.1.1
  unfold handleLiveError
  by_cases hle : c.state.maxReconnectAttempts ≤ c.state.reconnectAttempts + 1
  · rw [if_pos hle]
    have hg : Good (applyUpdate c.state
        { status := some Status.LIVE_UNAVAILABLE
          isPlaying := some false
          reconnectAttempts := some (c.state.reconnectAttempts + 1) }) := by
      refine ⟨by simpa using hmax, Or.inr (by simp)⟩
    exact updateState_goodC h hg
  · rw [if_neg hle]
    have hg : Good (applyUpdate c.state
        { status := some Status.LIVE_RECONNECTING
          reconnectAttempts := some (c.state.reconnectAttempts + 1) }) := by
      refine ⟨by simpa using hmax, Or.inl ?_⟩
      simpa using Nat.lt_of_not_le hle
    have h2 := updateState_goodC (c := { c with
        errorHandlerInvocations := c.errorHandlerInvocations + 1 }) h hg
    exact ⟨h2.1, h2.2⟩

/-- A partial update that names none of `status`, `reconnectAttempts`,
`maxReconnectAttempts` preserves the counter discipline. -/
theorem good_applyUpdate_keep {s : LivePlayerState} (h : Good s)
    (u : StateUpdate) (hst : u.status = none)
    (hra : u.reconnectAttempts = none) (hmx : u.maxReconnectAttempts = none) :
    Good (applyUpdate s u) := by
  refine ⟨by simp [hmx, h.1], ?_⟩
  rcases h.2 with hlt | hun
  · exact Or.inl (by simp [hra, hmx]; exact hlt)
  · exact Or.inr (by simp [hst, hun])

theorem tryStreamUrls_goodC {c : LivePlayer} (h : GoodC c)
    (urls : List String) (index : Nat) :
    GoodC (tryStreamUrls c urls index) := by
  rcases hla : c.liveAudio with _ | la
  · simp only [tryStreamUrls, hla]
    exact handleLiveError_goodC h
  · simp only [tryStreamUrls, hla]
    by_cases hidx : urls.length ≤ index
    · rw [if_pos hidx]
      exact handleLiveError_goodC h
    · rw [if_neg hidx]
      exact ⟨h.1, h.2⟩

theorem goLiveNow_goodC {c : LivePlayer} (h : GoodC c) :
    GoodC (goLiveNow c) := by
  rcases hla : c.liveAudio with _ | la
  · simpa only [goLiveNow, hla] using h
  · have hmax : c.state.maxReconnectAttempts = 10 := h.1.1
    have hg : Good (applyUpdate c.state
        { status := some Status.LIVE_CONNECTING
          reconnectAttempts := some 0 }) := by
      refine ⟨by simpa using hmax, Or.inl ?_⟩
      simp only [applyUpdate_reconnectAttempts, applyUpdate_maxReconnectAttempts]
      simp [hmax]
    rcases hrt : c.reconnectTimeout with _ | id
    · simp only [goLiveNow, hla, hrt]
      exact tryStreamUrls_goodC (updateState_goodC h hg) _ _
    · simp only [goLiveNow, hla, hrt]
      have h1 : GoodC { clearTimeout c id with reconnectTimeout := none } :=
        ⟨h.1, h.2⟩
      exact tryStreamUrls_goodC (updateState_goodC h1 hg) _ _

theorem crossfade_state (c : LivePlayer) (k : Nat) :
    (crossfade c k).state = c.state := by
  rcases hia : c.introAudio with _ | ia <;>
    rcases hla : c.liveAudio with _ | la <;>
      simp only [crossfade, hia, hla] <;>
        first
          | rfl
          | (split <;> rfl)

theorem crossfade_emitted (c : LivePlayer) (k : Nat) :
    (crossfade c k).emitted = c.emitted := by
  rcases hia : c.introAudio with _ | ia <;>
    rcases hla : c.liveAudio with _ | la <;>
      simp only [crossfade, hia, hla] <;>
        first
          | rfl
          | (split <;> rfl)

theorem crossfade_goodC {c : LivePlayer} (h : GoodC c) (k : Nat) :
    GoodC (crossfade c k) := by
  refine ⟨?_, ?_⟩
  · rw [crossfade_state]; exact h.1
  · intro s hs; rw [crossfade_emitted] at hs; exact h.2 s hs

theorem startCrossfade_goodC {c : LivePlayer} (h : GoodC c) :
    GoodC (startCrossfade c) := by
  rcases hia : c.introAudio with _ | ia <;>
    rcases hla : c.liveAudio with _ | la <;>
      simp only [startCrossfade, hia, hla]
  · exact h
  · exact h
  · exact h
  · rcases hct : c.crossfadeTimeout with _ | id <;> simp only [hct]
    · exact crossfade_goodC h 0
    · exact crossfade_goodC (⟨h.1, h.2⟩ : GoodC (clearTimeout c id)) 0

theorem onCanPlay_goodC {c : LivePlayer} (h : GoodC c) :
    GoodC (onCanPlay c) := by
  by_cases hst : c.state.status = Status.LIVE_CONNECTING
  · rw [onCanPlay, if_pos hst]
    have hg : Good (applyUpdate c.state
        { status := some Status.LIVE_ON_AIR, isPlaying := some true }) := by
      refine ⟨by simpa using h.1.1, ?_⟩
      rcases h.1.2 with hlt | hun
      · exact Or.inl (by simpa using hlt)
      · exact absurd (hst.symm.trans hun) (by decide)
    exact startCrossfade_goodC (updateState_goodC h hg)
  · rw [onCanPlay, if_neg hst]
    exact h

theorem onLivePlay_goodC {c : LivePlayer} (h : GoodC c) :
    GoodC (onLivePlay c) := by
  by_cases hst : c.state.status = Status.LIVE_ON_AIR
  · rw [onLivePlay, if_pos hst]
    exact updateState_goodC h (good_applyUpdate_keep h.1 _ rfl rfl rfl)
  · rw [onLivePlay, if_neg hst]
    exact h

theorem onLivePause_goodC {c : LivePlayer} (h : GoodC c) :
    GoodC (onLivePause c) :=
  updateState_goodC h (good_applyUpdate_keep h.1 _ rfl rfl rfl)

theorem onIntroEnded_goodC {c : LivePlayer} (h : GoodC c) :
    GoodC (onIntroEnded c) :=
  goLiveNow_goodC (updateState_goodC h (good_applyUpdate_keep h.1 _ rfl rfl rfl))

theorem onIntroError_goodC {c : LivePlayer} (h : GoodC c) :
    GoodC (onIntroError c) :=
  goLiveNow_goodC h

theorem onIntroPlay_goodC {c : LivePlayer} (h : GoodC c) :
    GoodC (onIntroPlay c) :=
  updateState_goodC h (good_applyUpdate_keep h.1 _ rfl rfl rfl)

theorem onIntroPause_goodC {c : LivePlayer} (h : GoodC c) :
    GoodC (onIntroPause c) :=
  updateState_goodC h (good_applyUpdate_keep h.1 _ rfl rfl rfl)

theorem onIntroTimeUpdate_goodC {c : LivePlayer} (h : GoodC c) (t : ℚ) :
    GoodC (onIntroTimeUpdate c t) := by
  rcases hia : c.introAudio with _ | ia <;> simp only [onIntroTimeUpdate, hia]
  · exact h
  · exact updateState_goodC (c := { c with
      introAudio := some { ia with currentTime := t } }) ⟨h.1, h.2⟩
      (good_applyUpdate_keep h.1 _ rfl rfl rfl)

theorem onIntroLoadedMetadata_goodC {c : LivePlayer} (h : GoodC c) (d : ℚ) :
    GoodC (onIntroLoadedMetadata c d) := by
  rcases hia : c.introAudio with _ | ia <;> simp only [onIntroLoadedMetadata, hia]
  · exact h
  · exact updateState_goodC h (good_applyUpdate_keep h.1 _ rfl rfl rfl)

theorem setVolume_goodC {c : LivePlayer} (h : GoodC c) (v : ℚ) :
    GoodC (setVolume c v) := by
  have h1 : GoodC (updateState c { volume := some v }) :=
    updateState_goodC h (good_applyUpdate_keep h.1 _ rfl rfl rfl)
  rcases hia : c.introAudio with _ | ia <;>
    rcases hla : c.liveAudio with _ | la <;>
      simp only [setVolume, updateState_introAudio, updateState_liveAudio,
        hia, hla] <;>
        exact ⟨h1.1, h1.2⟩

theorem teardown_goodC {c : LivePlayer} (h : GoodC c) :
    GoodC (teardown c) := by
  rcases hrt : c.reconnectTimeout with _ | i <;>
    rcases hct : c.crossfadeTimeout with _ | j <;>
      rcases hia : c.introAudio with _ | ia <;>
        rcases hla : c.liveAudio with _ | la <;>
          simp only [teardown, clearTimeout, hrt, hct, hia, hla] <;>
            exact ⟨h.1, h.2⟩

theorem fireTask_goodC {c : LivePlayer} (h : GoodC c) (task : TaskKind) :
    GoodC (fireTask c task) := by
  cases task with
  | reconnect => exact goLiveNow_goodC h
  | crossfadeStep step => exact crossfade_goodC h step
  | candidateTimeout urls index =>
      by_cases hst : c.state.status = Status.LIVE_CONNECTING
      · rw [fireTask, if_pos hst]
        exact tryStreamUrls_goodC h _ _
      · rw [fireTask, if_neg hst]
        exact h
  | rejectRetry urls index => exact tryStreamUrls_goodC h _ _
  | playPromise urls index => exact ⟨h.1, h.2⟩

theorem fireTimer_goodC {c : LivePlayer} (h : GoodC c) (id : Nat) :
    GoodC (fireTimer c id) := by
  rcases hf : c.pending.find? (fun t => t.id == id) with _ | t <;>
    simp only [fireTimer, hf]
  · exact h
  · exact fireTask_goodC (⟨h.1, h.2⟩ : GoodC (clearTimeout c id)) t.task

end LivePlayer

theorem stepEvent_goodC {c : LivePlayer} (h : GoodC c) (e : Event) :
    GoodC (stepEvent c e) := by
  cases e with
  | fireTimer id => exact LivePlayer.fireTimer_goodC h id
  | canplay => exact LivePlayer.onCanPlay_goodC h
  | liveError => exact LivePlayer.handleLiveError_goodC h
  | liveStalled => exact LivePlayer.handleLiveError_goodC h
  | livePlay => exact LivePlayer.onLivePlay_goodC h
  | livePause => exact LivePlayer.onLivePause_goodC h
  | introEnded => exact LivePlayer.onIntroEnded_goodC h
  | introError => exact LivePlayer.onIntroError_goodC h
  | introPlay => exact LivePlayer.onIntroPlay_goodC h
  | introPause => exact LivePlayer.onIntroPause_goodC h
  | introTimeUpdate t => exact LivePlayer.onIntroTimeUpdate_goodC h t
  | introLoadedMetadata d => exact LivePlayer.onIntroLoadedMetadata_goodC h d
  | goLive => exact LivePlayer.goLiveNow_goodC h
  | setVol v => exact LivePlayer.setVolume_goodC h v
  | tearDown => exact LivePlayer.teardown_goodC h

theorem run_goodC {c : LivePlayer} (h : GoodC c) (es : List Event) :
    GoodC (run c es) := by
  induction es generalizing c with
  | nil => exact h
  | cons e es ih => exact ih (stepEvent_goodC h e)

instance (s : LivePlayerState) : Decidable (Good s) := by
  unfold Good; infer_instance

instance (c : LivePlayer) : Decidable (GoodC c) := by
  unfold GoodC; infer_instance

theorem init_goodC (b : Bool) : GoodC (LivePlayer.init LivePlayer.new b) := by
  cases b <;> decide

/-! ### Concrete traces used by the claims -/

/-- A fresh go-live sequence in which all three candidates time out: the
three per-candidate 5000 ms timeouts (ids 1, 3, 5) fire in order while the
session stays `LIVE_CONNECTING`. -/
def c1FailTrace : List Event :=
  [Event.goLive, Event.fireTimer 1, Event.fireTimer 3, Event.fireTimer 5]

/-- A go-live sequence followed by eleven consecutive `error` events from
the live element (each failed load/stall report invokes the unguarded
`error`/`stalled` listeners) with no intervening timer firing. -/
def c2Trace : List Event :=
  Event.goLive :: List.replicate 11 Event.liveError

/-- Ten consecutive failed connect cycles: after `goLiveNow`, each cycle
fires its three candidate timeouts (reaching the reconnect handler), then
— for the first nine cycles — its 3000 ms reconnect timer, re-entering the
next cycle. Timer ids follow the allocation order of the model. -/
def tenCyclesTrace : List Event :=
  [Event.goLive,
   Event.fireTimer 1, Event.fireTimer 3, Event.fireTimer 5, Event.fireTimer 6,
   Event.fireTimer 8, Event.fireTimer 10, Event.fireTimer 12, Event.fireTimer 13,
   Event.fireTimer 15, Event.fireTimer 17, Event.fireTimer 19, Event.fireTimer 20,
   Event.fireTimer 22, Event.fireTimer 24, Event.fireTimer 26, Event.fireTimer 27,
   Event.fireTimer 29, Event.fireTimer 31, Event.fireTimer 33, Event.fireTimer 34,
   Event.fireTimer 36, Event.fireTimer 38, Event.fireTimer 40, Event.fireTimer 41,
   Event.fireTimer 43, Event.fireTimer 45, Event.fireTimer 47, Event.fireTimer 48,
   Event.fireTimer 50, Event.fireTimer 52, Event.fireTimer 54, Event.fireTimer 55,
   Event.fireTimer 57, Event.fireTimer 59, Event.fireTimer 61, Event.fireTimer 62,
   Event.fireTimer 64, Event.fireTimer 66, Event.fireTimer 68]

/-! ### Claim C1 -/

/-- Claim C1 (evaluation of the code at the failing input): after a fresh
go-live sequence whose three candidates all time out, the controller sits
in `LIVE_RECONNECTING` with `reconnectAttempts = 1` and the 3000 ms
reconnect timer (id 6) pending; when that timer fires, the controller
re-enters `LIVE_CONNECTING` with `reconnectAttempts = 0` — the counter is
reset by `goLiveNow`, not carried over as the claim states. -/
theorem C1_reconnect_resets_counter :
    ((run initPlayer c1FailTrace).state.status = Status.LIVE_RECONNECTING) ∧
    ((run initPlayer c1FailTrace).state.reconnectAttempts = 1) ∧
    ((run initPlayer c1FailTrace).reconnectTimeout = some 6) ∧
    ((stepEvent (run initPlayer c1FailTrace) (Event.fireTimer 6)).state.status =
      Status.LIVE_CONNECTING) ∧
    ((stepEvent (run initPlayer c1FailTrace)
        (Event.fireTimer 6)).state.reconnectAttempts = 0) := by
  decide

/-! ### Claim C2 -/

/-- Counterexample to claim C2 as stated: a reachable run in which the
current state (and a delivered snapshot) has
`reconnectAttempts = 11 > 10 = maxReconnectAttempts`: the live element's
`error` listener is not guarded by status, so errors arriving after
`LIVE_UNAVAILABLE` keep incrementing the counter past the ceiling. -/
theorem C2_ceiling_exceeded_counterexample :
    ((run initPlayer c2Trace).state.maxReconnectAttempts <
      (run initPlayer c2Trace).state.reconnectAttempts) ∧
    0 < snapshotViolations (run initPlayer c2Trace) := by
  decide

/-- Claim C2 (amended): on every reachable controller — any event trace
after `init()` — every state and every snapshot delivered to
`onStateChange` satisfies the discipline the code actually maintains:
the ceiling is the constant 10, and any record whose counter has reached
or passed the ceiling carries status `LIVE_UNAVAILABLE` (the transition
that reaches the ceiling is the one that sets `LIVE_UNAVAILABLE`); the
bound `reconnectAttempts <= maxReconnectAttempts` itself is not
maintained. -/
theorem C2_attempts_discipline (audioAcquisitionThrows : Bool)
    (es : List Event) :
    GoodC (run (LivePlayer.init LivePlayer.new audioAcquisitionThrows) es) :=
  run_goodC (init_goodC audioAcquisitionThrows) es

/-- Witness for C2 (amended), at a concrete trace. -/
theorem C2_attempts_discipline_witness :
    GoodC (run (LivePlayer.init LivePlayer.new false)
      [Event.goLive, Event.liveError]) :=
  C2_attempts_discipline false [Event.goLive, Event.liveError]

/-! ### Claim C3 -/

/-- Claim C3 (evaluation of the code at the failing input): after ten
consecutive failed connect cycles from a fresh go-live sequence the status
is `LIVE_RECONNECTING` — not `LIVE_UNAVAILABLE` — with
`reconnectAttempts = 1` (each cycle's `goLiveNow` reset it), a further
automatic 3000 ms timer (id 69) is pending, and firing it produces yet
another state change to `LIVE_CONNECTING`: the retry loop never halts on
this path. -/
theorem C3_ten_cycles_never_unavailable :
    ((run initPlayer tenCyclesTrace).state.status =
      Status.LIVE_RECONNECTING) ∧
    ((run initPlayer tenCyclesTrace).state.reconnectAttempts = 1) ∧
    ((run initPlayer tenCyclesTrace).reconnectTimeout = some 69) ∧
    (69 ∈ pendingIds (run initPlayer tenCyclesTrace)) ∧
    ((stepEvent (run initPlayer tenCyclesTrace)
        (Event.fireTimer 69)).state.status = Status.LIVE_CONNECTING) := by
  decide

/-! ### Claim C9 -/

/-- Claim C9: `init()` is total (the model of the `try`/`catch` returns in
both environments): when audio-subsystem acquisition throws it reports
`LIVE_UNAVAILABLE` through the state callback (that snapshot is the only
delivery); otherwise the session is left in `INTRO` with `isPlaying`
false and both sources created but paused (not auto-started). -/
theorem C9_init_reports_through_state :
    ((LivePlayer.init LivePlayer.new true).state.status =
      Status.LIVE_UNAVAILABLE) ∧
    ((LivePlayer.init LivePlayer.new true).emitted.map LivePlayerState.status =
      [Status.LIVE_UNAVAILABLE]) ∧
    ((LivePlayer.init LivePlayer.new false).emitted.length = 1) ∧
    ((LivePlayer.init LivePlayer.new false).state.status = Status.INTRO) ∧
    ((LivePlayer.init LivePlayer.new false).state.isPlaying = false) ∧
    ((LivePlayer.init LivePlayer.new false).introAudio.map AudioEl.paused =
      some true) ∧
    ((LivePlayer.init LivePlayer.new false).liveAudio.map AudioEl.paused =
      some true) := by
  decide

/-! ### Claim C10 -/

/-- Claim C10: `updateState` merges the partial update into the previous
record — every field not named keeps its previous value, every named field
takes exactly the updated value — and delivers to `onStateChange` exactly
one new snapshot, namely the complete merged record. -/
theorem C10_updateState_merge (c : LivePlayer) (u : StateUpdate) :
    (LivePlayer.updateState c u).state = applyUpdate c.state u ∧
    (LivePlayer.updateState c u).emitted =
      c.emitted ++ [(LivePlayer.updateState c u).state] ∧
    MergeSpec c.state u := by
  refine ⟨rfl, rfl, ?_⟩
  unfold MergeSpec
  refine ⟨⟨?_, ?_⟩, ⟨?_, ?_⟩, ⟨?_, ?_⟩, ⟨?_, ?_⟩, ⟨?_, ?_⟩, ⟨?_, ?_⟩,
    ⟨?_, ?_⟩⟩ <;> intros <;> simp_all

/-- Witness for C10, at a concrete controller and update. -/
theorem C10_updateState_merge_witness :
    (LivePlayer.updateState initPlayer
        { status := some Status.LIVE_CONNECTING }).state =
      applyUpdate initPlayer.state { status := some Status.LIVE_CONNECTING } ∧
    (LivePlayer.updateState initPlayer
        { status := some Status.LIVE_CONNECTING }).emitted =
      initPlayer.emitted ++
        [(LivePlayer.updateState initPlayer
            { status := some Status.LIVE_CONNECTING }).state] ∧
    MergeSpec initPlayer.state { status := some Status.LIVE_CONNECTING } :=
  C10_updateState_merge initPlayer { status := some Status.LIVE_CONNECTING }

/-! ### Claim C4 -/

/-- Within the candidate list, `tryStreamUrls` leaves the state record
untouched (it only assigns the source and schedules its two tasks). -/
theorem tryStreamUrls_state {c : LivePlayer} {la : AudioEl}
    (hla : c.liveAudio = some la) {urls : List String} {index : Nat}
    (hidx : index < urls.length) :
    (LivePlayer.tryStreamUrls c urls index).state = c.state := by
  simp only [LivePlayer.tryStreamUrls, hla]
  rw [if_neg (Nat.not_le.mpr hidx)]
  rfl

/-- Within the candidate list, `tryStreamUrls` allocates exactly the two
fresh timers of the new candidate (the play promise and the 5000 ms
timeout). -/
theorem tryStreamUrls_nextId {c : LivePlayer} {la : AudioEl}
    (hla : c.liveAudio = some la) {urls : List String} {index : Nat}
    (hidx : index < urls.length) :
    (LivePlayer.tryStreamUrls c urls index).nextId = c.nextId + 2 := by
  simp only [LivePlayer.tryStreamUrls, hla]
  rw [if_neg (Nat.not_le.mpr hidx)]
  rfl

/-- Counterexample to claim C4 as stated: a go-live intent issued while
already `LIVE_ON_AIR` is not a no-op — it moves the status back to
`LIVE_CONNECTING`; and one issued while already `LIVE_CONNECTING` restarts
the candidate sequence (two fresh candidate timers are allocated). -/
theorem C4_counterexample_goLive_not_noop :
    ((run initPlayer [Event.goLive, Event.canplay]).state.status =
      Status.LIVE_ON_AIR) ∧
    ((stepEvent (run initPlayer [Event.goLive, Event.canplay])
        Event.goLive).state.status = Status.LIVE_CONNECTING) ∧
    ((run initPlayer [Event.goLive]).state.status =
      Status.LIVE_CONNECTING) ∧
    ((stepEvent (run initPlayer [Event.goLive]) Event.goLive).nextId =
      (run initPlayer [Event.goLive]).nextId + 2) := by
  decide

/-- Claim C4 (amended): `goLiveNow` carries no status guard at all — from
every status (including `LIVE_CONNECTING` and `LIVE_ON_AIR`), as long as
the live element exists, it re-enters `LIVE_CONNECTING`, resets
`reconnectAttempts` to 0 and restarts the candidate sequence (allocating
the two timers of candidate 0); it is a no-op only when the live element
is `null`. -/
theorem C4_goLive_always_restarts (c : LivePlayer) (la : AudioEl)
    (h : c.liveAudio = some la) :
    (LivePlayer.goLiveNow c).state.status = Status.LIVE_CONNECTING ∧
    (LivePlayer.goLiveNow c).state.reconnectAttempts = 0 ∧
    (LivePlayer.goLiveNow c).nextId = c.nextId + 2 := by
  have hlen : (0 : ℕ) < LivePlayer.streamUrls.length := by decide
  rcases hrt : c.reconnectTimeout with _ | id
  · simp only [LivePlayer.goLiveNow, h, hrt]
    have h2 : (LivePlayer.updateState c
        { status := some Status.LIVE_CONNECTING,
          reconnectAttempts := some 0 }).liveAudio = some la := by
      simp [h]
    have hs := tryStreamUrls_state h2 hlen
    have hn := tryStreamUrls_nextId h2 hlen
    refine ⟨?_, ?_, ?_⟩
    · rw [hs, LivePlayer.updateState_state]; simp
    · rw [hs, LivePlayer.updateState_state]; simp
    · rw [hn]; simp
  · simp only [LivePlayer.goLiveNow, h, hrt]
    have h2 : (LivePlayer.updateState
        { LivePlayer.clearTimeout c id with reconnectTimeout := none }
        { status := some Status.LIVE_CONNECTING,
          reconnectAttempts := some 0 }).liveAudio = some la := by
      simp [h]
    have hs := tryStreamUrls_state h2 hlen
    have hn := tryStreamUrls_nextId h2 hlen
    refine ⟨?_, ?_, ?_⟩
    · rw [hs, LivePlayer.updateState_state]; simp
    · rw [hs, LivePlayer.updateState_state]; simp
    · rw [hn]; simp

/-- Witness for C4 (amended), at the freshly initialised controller. -/
theorem C4_goLive_always_restarts_witness :
    (LivePlayer.goLiveNow initPlayer).state.status =
        Status.LIVE_CONNECTING ∧
    (LivePlayer.goLiveNow initPlayer).state.reconnectAttempts = 0 ∧
    (LivePlayer.goLiveNow initPlayer).nextId = initPlayer.nextId + 2 :=
  C4_goLive_always_restarts initPlayer
    { src := "", volume := 1/2, paused := true, currentTime := 0 } rfl

/-! ### Claim C5 -/

/-- Counterexample to claim C5 as stated: tearing down during
`LIVE_CONNECTING` leaves the per-candidate timers pending (their handles
were never stored), and advancing them afterwards still drives the
candidate chain into the reconnect handler — a further `onStateChange`
delivery after `teardown()`. -/
theorem C5_counterexample_callbacks_after_teardown :
    ((run initPlayer [Event.goLive, Event.tearDown]).pending ≠ []) ∧
    ((run initPlayer [Event.goLive, Event.tearDown]).emitted.length = 2) ∧
    ((run (run initPlayer [Event.goLive, Event.tearDown])
        [Event.fireTimer 1, Event.fireTimer 3, Event.fireTimer 5]).emitted.length
      = 3) := by
  decide

/-- Claim C5 (amended): `teardown()` does cancel the timers whose handles
the controller stores — the reconnect delay, the crossfade step and the
analysis loop — and schedules nothing new; the per-candidate 5000 ms
timeouts and 1000 ms play-rejection retries are not tracked and hence not
cancelled (see the counterexample for a post-teardown callback). -/
theorem C5_teardown_clears_tracked_timers (c : LivePlayer) (i j : Nat)
    (hr : c.reconnectTimeout = some i) (hc : c.crossfadeTimeout = some j) :
    TimersCleared c (LivePlayer.teardown c) i j := by
  have hp : (LivePlayer.teardown c).pending =
      (c.pending.filter (fun t => t.id != i)).filter (fun t => t.id != j) := by
    rcases hia : c.introAudio with _ | ia <;>
      rcases hla : c.liveAudio with _ | la <;>
        simp [LivePlayer.teardown, LivePlayer.clearTimeout, hr, hc, hia, hla]
  have ha : (LivePlayer.teardown c).animationFrameOn = false := by
    rcases hia : c.introAudio with _ | ia <;>
      rcases hla : c.liveAudio with _ | la <;>
        simp [LivePlayer.teardown, LivePlayer.clearTimeout, hr, hc, hia, hla]
  refine ⟨ha, ?_⟩
  intro t ht
  rw [hp] at ht
  simp only [List.mem_filter, bne_iff_ne, ne_eq, decide_not,
    Bool.not_eq_eq_eq_not, Bool.not_true, decide_eq_false_iff_not] at ht
  exact ⟨ht.1.2, ht.2, ht.1.1⟩

/-- Witness for C5 (amended): a controller with both an active crossfade
timer (id 2) and a pending reconnect timer (id 3). -/
theorem C5_teardown_clears_tracked_timers_witness :
    TimersCleared (run initPlayer [Event.goLive, Event.canplay, Event.liveError])
      (LivePlayer.teardown
        (run initPlayer [Event.goLive, Event.canplay, Event.liveError])) 3 2 :=
  C5_teardown_clears_tracked_timers
    (run initPlayer [Event.goLive, Event.canplay, Event.liveError]) 3 2
    (by decide) (by decide)

/-! ### Claim C8 -/

/-- Each entry into the reconnect handler bumps the instrumentation
counter by exactly one. -/
theorem handleLiveError_invocations (c : LivePlayer) :
    (LivePlayer.handleLiveError c).errorHandlerInvocations =
      c.errorHandlerInvocations + 1 := by
  simp only [LivePlayer.handleLiveError]
  split <;> rfl

/-- Counterexample to claim C8 as stated: within one single go-live
sequence (exactly one `goLive` in the trace), the play-rejection retry
chain — which advances without any status guard — and the candidate
timeout chain both reach the end of the list: the reconnect handler runs
twice for that sequence. -/
theorem C8_counterexample_handler_runs_twice :
    ((run initPlayer
        [Event.goLive, Event.fireTimer 0, Event.fireTimer 1, Event.fireTimer 2,
         Event.fireTimer 5, Event.fireTimer 7, Event.fireTimer 8,
         Event.fireTimer 4, Event.fireTimer 12]).errorHandlerInvocations = 1) ∧
    ((run initPlayer
        [Event.goLive, Event.fireTimer 0, Event.fireTimer 1, Event.fireTimer 2,
         Event.fireTimer 5, Event.fireTimer 7, Event.fireTimer 8,
         Event.fireTimer 4, Event.fireTimer 12,
         Event.fireTimer 10]).errorHandlerInvocations = 2) := by
  decide

/-- Claim C8 (amended): whenever the candidate index reaches the end of
the URL list, `tryStreamUrls` is exactly the reconnect handler, entering
it exactly once per such call; but the 1000 ms play-rejection retry is not
guarded by status, so a racing retry chain can produce a second such call
for the same sequence (see the counterexample). -/
theorem C8_end_of_list_invokes_handler (c : LivePlayer) (urls : List String)
    (index : Nat) (h : urls.length ≤ index) :
    LivePlayer.tryStreamUrls c urls index = LivePlayer.handleLiveError c ∧
    (LivePlayer.tryStreamUrls c urls index).errorHandlerInvocations =
      c.errorHandlerInvocations + 1 := by
  have he : LivePlayer.tryStreamUrls c urls index =
      LivePlayer.handleLiveError c := by
    rcases hla : c.liveAudio with _ | la <;>
      simp only [LivePlayer.tryStreamUrls, hla]
    rw [if_pos h]
  refine ⟨he, ?_⟩
  rw [he, handleLiveError_invocations]

/-- Witness for C8 (amended): the exhausted index 3 of the 3-element
candidate list. -/
theorem C8_end_of_list_invokes_handler_witness :
    (LivePlayer.streamUrls.length ≤ 3) ∧
    (LivePlayer.tryStreamUrls initPlayer LivePlayer.streamUrls 3 =
        LivePlayer.handleLiveError initPlayer ∧
      (LivePlayer.tryStreamUrls initPlayer
          LivePlayer.streamUrls 3).errorHandlerInvocations =
        initPlayer.errorHandlerInvocations + 1) :=
  ⟨by decide,
    C8_end_of_list_invokes_handler initPlayer LivePlayer.streamUrls 3 (by decide)⟩

/-! ### Claim C6 -/

namespace LivePlayer

theorem crossfade_introAudio_isSome (c : LivePlayer) (k : Nat) :
    (crossfade c k).introAudio.isSome = c.introAudio.isSome := by
  rcases hia : c.introAudio with _ | ia <;>
    rcases hla : c.liveAudio with _ | la <;>
      simp only [crossfade, hia, hla] <;>
        first
          | rfl
          | (split <;> rfl)

theorem crossfade_liveAudio_isSome (c : LivePlayer) (k : Nat) :
    (crossfade c k).liveAudio.isSome = c.liveAudio.isSome := by
  rcases hia : c.introAudio with _ | ia <;>
    rcases hla : c.liveAudio with _ | la <;>
      simp only [crossfade, hia, hla] <;>
        first
          | rfl
          | (split <;> rfl)

theorem startCrossfade_state (c : LivePlayer) :
    (startCrossfade c).state = c.state := by
  rcases hia : c.introAudio with _ | ia <;>
    rcases hla : c.liveAudio with _ | la <;>
      simp only [startCrossfade, hia, hla] <;>
        first
          | rfl
          | (rcases hct : c.crossfadeTimeout with _ | id <;>
              simp only [hct, crossfade_state, clearTimeout_state])

theorem startCrossfade_introAudio_isSome (c : LivePlayer) :
    (startCrossfade c).introAudio.isSome = c.introAudio.isSome := by
  rcases hia : c.introAudio with _ | ia <;>
    rcases hla : c.liveAudio with _ | la <;>
      simp only [startCrossfade, hia, hla] <;>
        first
          | rfl
          | (rcases hct : c.crossfadeTimeout with _ | id <;>
              simp only [hct, crossfade_introAudio_isSome,
                clearTimeout_introAudio, hia])

theorem startCrossfade_liveAudio_isSome (c : LivePlayer) :
    (startCrossfade c).liveAudio.isSome = c.liveAudio.isSome := by
  rcases hia : c.introAudio with _ | ia <;>
    rcases hla : c.liveAudio with _ | la <;>
      simp only [startCrossfade, hia, hla] <;>
        first
          | rfl
          | (rcases hct : c.crossfadeTimeout with _ | id <;>
              simp only [hct, crossfade_liveAudio_isSome,
                clearTimeout_liveAudio, hla])

end LivePlayer

/-- The crossfade closure never touches the state record, over any list of
steps. -/
theorem foldlCF_state (l : List Nat) (c : LivePlayer) :
    (l.foldl (fun a k => LivePlayer.crossfade a (k + 1)) c).state = c.state := by
  induction l generalizing c with
  | nil => rfl
  | cons x xs ih => rw [List.foldl_cons, ih, LivePlayer.crossfade_state]

theorem foldlCF_introSome (l : List Nat) (c : LivePlayer) :
    (l.foldl (fun a k => LivePlayer.crossfade a (k + 1)) c).introAudio.isSome =
      c.introAudio.isSome := by
  induction l generalizing c with
  | nil => rfl
  | cons x xs ih =>
      rw [List.foldl_cons, ih, LivePlayer.crossfade_introAudio_isSome]

theorem foldlCF_liveSome (l : List Nat) (c : LivePlayer) :
    (l.foldl (fun a k => LivePlayer.crossfade a (k + 1)) c).liveAudio.isSome =
      c.liveAudio.isSome := by
  induction l generalizing c with
  | nil => rfl
  | cons x xs ih =>
      rw [List.foldl_cons, ih, LivePlayer.crossfade_liveAudio_isSome]

/-- The crossfade call whose counter exceeds 50: the intro element is
paused with its position reset, and the live element's volume is exactly
the current shared target. -/
theorem crossfade_complete_fifty (c : LivePlayer) (ia la : AudioEl)
    (hi : c.introAudio = some ia) (hl : c.liveAudio = some la)
    (hv : 0 ≤ c.state.volume) :
    (LivePlayer.crossfade c 50).introAudio.map AudioEl.paused = some true ∧
    (LivePlayer.crossfade c 50).introAudio.map AudioEl.currentTime = some 0 ∧
    (LivePlayer.crossfade c 50).liveAudio.map AudioEl.volume =
      some c.state.volume := by
  simp only [LivePlayer.crossfade, hi, hl]
  rw [if_neg (by norm_num)]
  refine ⟨rfl, rfl, ?_⟩
  have hone : ((50 : Nat) : ℚ) / 50 * c.state.volume = c.state.volume := by
    norm_num
  simp only [Option.map_some]
  rw [hone, max_eq_right hv]
  rfl

/-- Claim C6: a crossfade that runs to completion with no intervening
`setVolume` (the target stays `c.state.volume`, e.g. 1/2) ends — at the
call where the step counter exceeds 50 — with the intro element paused at
position 0 and the live element's volume exactly the target (not 1, not
0). -/
theorem C6_crossfade_completion (c : LivePlayer) (ia la : AudioEl)
    (hi : c.introAudio = some ia) (hl : c.liveAudio = some la)
    (hv : 0 ≤ c.state.volume) :
    (crossfadeToCompletion c).introAudio.map AudioEl.paused = some true ∧
    (crossfadeToCompletion c).introAudio.map AudioEl.currentTime = some 0 ∧
    (crossfadeToCompletion c).liveAudio.map AudioEl.volume =
      some c.state.volume := by
  have hrange : List.range 50 = List.range 49 ++ [49] := by decide
  have hsplit : crossfadeToCompletion c =
      LivePlayer.crossfade
        ((List.range 49).foldl (fun a k => LivePlayer.crossfade a (k + 1))
          (LivePlayer.startCrossfade c)) 50 := by
    rw [crossfadeToCompletion, hrange, List.foldl_append]
    rfl
  set mid := (List.range 49).foldl (fun a k => LivePlayer.crossfade a (k + 1))
    (LivePlayer.startCrossfade c) with hmid
  have hstate : mid.state = c.state := by
    rw [hmid, foldlCF_state, LivePlayer.startCrossfade_state]
  have hintro : mid.introAudio.isSome = true := by
    rw [hmid, foldlCF_introSome, LivePlayer.startCrossfade_introAudio_isSome, hi]
    rfl
  have hlive : mid.liveAudio.isSome = true := by
    rw [hmid, foldlCF_liveSome, LivePlayer.startCrossfade_liveAudio_isSome, hl]
    rfl
  obtain ⟨ia2, hia2⟩ := Option.isSome_iff_exists.mp hintro
  obtain ⟨la2, hla2⟩ := Option.isSome_iff_exists.mp hlive
  have hres := crossfade_complete_fifty mid ia2 la2 hia2 hla2
    (by rw [hstate]; exact hv)
  rw [hstate] at hres
  rw [hsplit]
  exact hres

/-- Witness for C6, at the freshly initialised controller (target 1/2). -/
theorem C6_crossfade_completion_witness :
    (crossfadeToCompletion initPlayer).introAudio.map AudioEl.paused =
      some true ∧
    (crossfadeToCompletion initPlayer).introAudio.map AudioEl.currentTime =
      some 0 ∧
    (crossfadeToCompletion initPlayer).liveAudio.map AudioEl.volume =
      some initPlayer.state.volume :=
  C6_crossfade_completion initPlayer
    { src := "/music/intro.mp3", volume := 1/2, paused := true, currentTime := 0 }
    { src := "", volume := 1/2, paused := true, currentTime := 0 }
    rfl rfl (le_of_lt one_half_pos)

/-! ### Claim C7 -/

/-- `setVolume` broadcasts the new shared target and writes it directly
into both elements' volumes. -/
theorem setVolume_fields {c : LivePlayer} {ia la : AudioEl}
    (hi : c.introAudio = some ia) (hl : c.liveAudio = some la) (v : ℚ) :
    (LivePlayer.setVolume c v).state.volume = v ∧
    (LivePlayer.setVolume c v).introAudio = some { ia with volume := v } ∧
    (LivePlayer.setVolume c v).liveAudio = some { la with volume := v } := by
  refine ⟨?_, ?_, ?_⟩ <;>
    simp [LivePlayer.setVolume, LivePlayer.updateState_state,
      LivePlayer.updateState_introAudio, LivePlayer.updateState_liveAudio,
      hi, hl]

/-- Each crossfade step reads the shared target at that step: the live
element's volume becomes the interpolation of the current target. -/
theorem crossfade_live_volume (c : LivePlayer) (k : Nat) (ia la : AudioEl)
    (hi : c.introAudio = some ia) (hl : c.liveAudio = some la) :
    (LivePlayer.crossfade c k).liveAudio.map AudioEl.volume =
      some (max 0 ((k : ℚ) / 50 * c.state.volume)) := by
  simp only [LivePlayer.crossfade, hi, hl]
  split <;> rfl

/-- Within the fade (counter still at most 50), the intro element's volume
becomes the complementary interpolation of the current target. -/
theorem crossfade_intro_volume (c : LivePlayer) (k : Nat) (ia la : AudioEl)
    (hi : c.introAudio = some ia) (hl : c.liveAudio = some la)
    (hk : k + 1 ≤ 50) :
    (LivePlayer.crossfade c k).introAudio.map AudioEl.volume =
      some (max 0 ((1 - (k : ℚ) / 50) * c.state.volume)) := by
  simp only [LivePlayer.crossfade, hi, hl]
  rw [if_pos hk]
  rfl

/-- The controller in the middle of a crossfade toward target volume 1/2:
exactly the state reached from `initPlayer` by `goLiveNow`, the `canplay`
success of candidate 0, and the first twenty-five scheduled crossfade
steps (the crossfade closure has run with `step = 0 … 25`; pending task 27
carries the next step, 26; both element volumes sit at
`(1 - 25/50) * (1/2) = 1/4` and `(25/50) * (1/2) = 1/4`). -/
def c7Mid : LivePlayer where
  state :=
    { status := Status.LIVE_ON_AIR
      isPlaying := true
      volume := 1/2
      currentTime := 0
      duration := 0
      reconnectAttempts := 0
      maxReconnectAttempts := 10 }
  introAudio := some
    { src := "/music/intro.mp3", volume := 1/4, paused := true
      currentTime := 0 }
  liveAudio := some
    { src := "https://radio.killedbythegalaxy.com/radio/8000/radio.mp3"
      volume := 1/4, paused := true, currentTime := 0 }
  reconnectTimeout := none
  crossfadeTimeout := some 27
  animationFrameOn := true
  pending :=
    [⟨0, 0, TaskKind.playPromise LivePlayer.streamUrls 0⟩,
     ⟨1, 5000, TaskKind.candidateTimeout LivePlayer.streamUrls 0⟩,
     ⟨27, 40, TaskKind.crossfadeStep 26⟩]
  nextId := 28
  emitted :=
    [{ status := Status.INTRO, isPlaying := false, volume := 1/2
       currentTime := 0, duration := 0, reconnectAttempts := 0
       maxReconnectAttempts := 10 },
     { status := Status.LIVE_CONNECTING, isPlaying := false, volume := 1/2
       currentTime := 0, duration := 0, reconnectAttempts := 0
       maxReconnectAttempts := 10 },
     { status := Status.LIVE_ON_AIR, isPlaying := true, volume := 1/2
       currentTime := 0, duration := 0, reconnectAttempts := 0
       maxReconnectAttempts := 10 }]
  errorHandlerInvocations := 0

/-- Counterexample to claim C7 as stated: `setVolume (1/5)` during the
active crossfade (step 25 of 50, old target 1/2) does not only change the
interpolation target — it writes 1/5 into both elements at once, a jump of
`1/4 - 1/5 = 1/20` which exceeds one fade step's increment (`1/100` of the
old target, `1/250` of the new); the following step then snaps the intro
element from 1/5 to `(1 - 26/50) * (1/5) = 12/125`, a jump of `13/125`,
again exceeding one step's increment. -/
theorem C7_counterexample_setVolume_jumps :
    (c7Mid.introAudio.map AudioEl.volume = some (1/4)) ∧
    (c7Mid.liveAudio.map AudioEl.volume = some (1/4)) ∧
    ((LivePlayer.setVolume c7Mid (1/5)).introAudio.map AudioEl.volume =
      some (1/5)) ∧
    ((LivePlayer.setVolume c7Mid (1/5)).liveAudio.map AudioEl.volume =
      some (1/5)) ∧
    ((LivePlayer.crossfade (LivePlayer.setVolume c7Mid (1/5)) 26).introAudio.map
        AudioEl.volume = some (12/125)) ∧
    ((1 : ℚ)/4 - 1/5 > 1/2 * (1/50)) ∧
    ((1 : ℚ)/5 - 12/125 > 1/2 * (1/50)) := by
  obtain ⟨hv, hintro, hlive⟩ :=
    setVolume_fields (c := c7Mid) rfl rfl (1/5)
  refine ⟨rfl, rfl, ?_, ?_, ?_, by norm_num, by norm_num⟩
  · rw [hintro]; rfl
  · rw [hlive]; rfl
  · rw [crossfade_intro_volume _ 26 _ _ hintro hlive (by norm_num), hv]
    norm_num

/-- Claim C7 (amended): `setVolume(v)` during an active crossfade updates
the shared target — every subsequent step interpolates toward `v` — but it
also writes `v` into both elements' volumes immediately, so element
volumes are not confined to one step's increment (see the
counterexample). -/
theorem C7_setVolume_target_and_direct_write (c : LivePlayer) (v : ℚ)
    (ia la : AudioEl) (hi : c.introAudio = some ia)
    (hl : c.liveAudio = some la) (k : Nat) :
    (LivePlayer.setVolume c v).state.volume = v ∧
    (LivePlayer.setVolume c v).introAudio.map AudioEl.volume = some v ∧
    (LivePlayer.setVolume c v).liveAudio.map AudioEl.volume = some v ∧
    (LivePlayer.crossfade (LivePlayer.setVolume c v) k).liveAudio.map
      AudioEl.volume = some (max 0 ((k : ℚ) / 50 * v)) := by
  obtain ⟨h1, h2, h3⟩ := setVolume_fields hi hl v
  refine ⟨h1, ?_, ?_, ?_⟩
  · rw [h2]; rfl
  · rw [h3]; rfl
  · rw [crossfade_live_volume _ k _ _ h2 h3, h1]

/-- Witness for C7 (amended), at the mid-crossfade controller. -/
theorem C7_setVolume_target_and_direct_write_witness :
    (LivePlayer.setVolume c7Mid (1/5)).state.volume = 1/5 ∧
    (LivePlayer.setVolume c7Mid (1/5)).introAudio.map AudioEl.volume =
      some (1/5) ∧
    (LivePlayer.setVolume c7Mid (1/5)).liveAudio.map AudioEl.volume =
      some (1/5) ∧
    (LivePlayer.crossfade (LivePlayer.setVolume c7Mid (1/5)) 26).liveAudio.map
      AudioEl.volume = some (max 0 (((26 : Nat) : ℚ) / 50 * (1/5))) :=
  C7_setVolume_target_and_direct_write c7Mid (1/5) _ _ rfl rfl 26

end Radio
